import Mathlib

/-!
Verification of `src/services/pdfService.ts` (`PDFService.generatePacket`).

The TypeScript source is shallowly embedded: JavaScript strings become
`String`, arrays become `List`, `undefined`-able values become `Option`,
promise rejection becomes `Except`, and the external effects (document
fetches, the category-directory lookup, the rendering-service request,
the current date) are supplied as an explicit environment record.
`Promise.all` places results by array index, so the fan-out fetch stage
is a deterministic index-ordered traversal; completion order is not
observable in the result.  `Array.prototype.sort` is required by
ECMA-262 to be a stable sort, and a stable sort by a total preorder is
extensionally unique, so it is embedded as `List.insertionSort`.
-/

/-- JavaScript `v || d` for an optional string: `undefined` and `""` are
falsy and yield the fallback `d`. -/
def jsOrStr (v : Option String) (d : String) : String :=
  match v with
  | none => d
  | some s => if s = "" then d else s

/-- JavaScript `s || d` for a string that is always defined: only `""` is
falsy. -/
def jsOrS (s d : String) : String :=
  if s = "" then d else s

/-- JavaScript truthiness test `if (v)` on an optional string. -/
def jsTruthy (v : Option String) : Bool :=
  match v with
  | none => false
  | some s => !(s = "")

/-- Template-literal interpolation of a possibly-`undefined` string:
JavaScript renders `undefined` as the text `"undefined"`. -/
def jsInterp (v : Option String) : String :=
  match v with
  | none => "undefined"
  | some s => s

/-- `pat` is a prefix of `l` (character lists). -/
def charsMatch : List Char → List Char → Bool
  | [], _ => true
  | _ :: _, [] => false
  | a :: pa, b :: pb => a = b && charsMatch pa pb

/-- `pat` occurs as a contiguous run inside `s` (character lists);
the embedding of JavaScript `String.prototype.includes`. -/
def charsContain (s pat : List Char) : Bool :=
  match s with
  | [] => charsMatch pat []
  | c :: t => charsMatch pat (c :: t) || charsContain t pat

/-- JavaScript `s.includes(pat)`. -/
def strIncludes (s pat : String) : Bool :=
  charsContain s.data pat.data

/-- JavaScript `s.toLowerCase()` (ASCII, which covers every string the
service compares). -/
def jsToLower (s : String) : String :=
  String.mk (s.data.map Char.toLower)

/-- JavaScript `s.split(',')` on character lists. -/
def splitCommaChars : List Char → List (List Char)
  | [] => [[]]
  | c :: cs =>
    let r := splitCommaChars cs
    if c = ',' then [] :: r
    else
      match r with
      | [] => [[c]]
      | h :: t => (c :: h) :: t

/-- JavaScript `s.split(',')`. -/
def jsSplitComma (s : String) : List String :=
  (splitCommaChars s.data).map String.mk

/-- `Document` of `src/types`: registry metadata.  Fields that JavaScript
may leave `undefined` are `Option`s. -/
structure Document where
  id : String
  name : Option String
  url : Option String
  type : Option String
deriving DecidableEq, Repr, Inhabited

/-- `SelectedDocument` of `src/types`: a document reference with the
`selected` flag and the sequencing `order` used by `generatePacket`. -/
structure SelectedDocument where
  id : String
  document : Document
  selected : Bool
  order : Int
deriving DecidableEq, Repr, Inhabited

/-- The per-document record built at `pdfService.ts:65-71`. -/
structure FetchedDocument where
  id : String
  name : String
  url : String
  type : String
  fileData : String
deriving DecidableEq, Repr, Inhabited

/-- Outcome of `fetch(doc.document.url)` followed by `blob()` and
`FileReader.readAsDataURL` (`pdfService.ts:35-59`).  The content-type
check at line 43 only logs a warning and has no semantic effect, so the
blob type is not modelled. -/
inductive FetchResult where
  | networkFailure (message : String)
  | notOk (status : Nat) (statusText : String)
  | readFailure
  | dataUrl (result : String)
deriving DecidableEq, Repr, Inhabited

/-- A settlement action performed on the encoding promise
(`pdfService.ts:48-60`). -/
inductive Settlement where
  | resolved (v : String)
  | rejected (e : String)
deriving DecidableEq, Repr, Inhabited

/-- The settlement actions the `onloadend` callback performs, in program
order (`pdfService.ts:49-57`): when the extracted base64 payload is
empty it first calls `reject` and then still calls `resolve`. -/
def onloadendActions (base64String : String) : List Settlement :=
  let base64Data := (jsSplitComma base64String).getD 1 ""
  (if base64Data = "" then [Settlement.rejected "Failed to encode document as base64"] else [])
    ++ [Settlement.resolved base64Data]

/-- Promise settlement semantics: the first `resolve`/`reject` wins and
every later settlement call is ignored. -/
def settle : List Settlement → Except String String
  | [] => Except.error "promise never settled"
  | Settlement.resolved v :: _ => Except.ok v
  | Settlement.rejected e :: _ => Except.error e

/-- `doc.document.name || 'Unnamed Document'` (`pdfService.ts:67,79`). -/
def displayName (doc : SelectedDocument) : String :=
  jsOrStr doc.document.name "Unnamed Document"

/-- The fetch-and-encode block of `pdfService.ts:31-63`: produce the
`fileData` string for one document, or the error that the inner `catch`
will wrap. -/
def fetchFileData (fetchEnv : String → FetchResult) (doc : SelectedDocument) :
    Except String String :=
  if jsTruthy doc.document.url then
    match fetchEnv (doc.document.url.getD "") with
    | FetchResult.networkFailure msg => Except.error msg
    | FetchResult.notOk status statusText =>
        Except.error ("Failed to fetch document: " ++ toString status ++ " " ++ statusText)
    | FetchResult.readFailure => Except.error "Failed to read document file"
    | FetchResult.dataUrl s => settle (onloadendActions s)
  else
    Except.error ("Document " ++ jsInterp doc.document.name ++ " has no URL")

/-- The body of `sortedDocs.map(async (doc) => ...)` at
`pdfService.ts:29-76`: fetch the document bytes, encode them, and build
the `FetchedDocument`; any inner failure is caught at line 72 and
re-thrown as the wrapped per-document error of line 74. -/
def processDocument (fetchEnv : String → FetchResult) (doc : SelectedDocument) :
    Except String FetchedDocument :=
  match fetchFileData fetchEnv doc with
  | Except.error _ =>
      Except.error ("Failed to process document: " ++ jsInterp doc.document.name)
  | Except.ok fileData =>
      Except.ok
        { id := doc.id
        , name := jsOrStr doc.document.name "Unnamed Document"
        , url := jsOrStr doc.document.url ""
        , type := jsOrStr doc.document.type "other"
        , fileData := jsOrS fileData "" }

/-- `Promise.all` over the per-document promises (`pdfService.ts:28`):
results are placed by index, and the aggregate fails whenever any
element fails. -/
def processAll (fetchEnv : String → FetchResult) :
    List SelectedDocument → Except String (List FetchedDocument)
  | [] => Except.ok []
  | d :: ds =>
    match processDocument fetchEnv d, processAll fetchEnv ds with
    | Except.error e, _ => Except.error e
    | Except.ok _, Except.error e => Except.error e
    | Except.ok f, Except.ok fs => Except.ok (f :: fs)

/-- The comparison relation induced by the comparator
`(a, b) => a.order - b.order` at `pdfService.ts:21`. -/
def docLE (a b : SelectedDocument) : Prop :=
  a.order ≤ b.order

instance : DecidableRel docLE :=
  fun a b => (inferInstance : Decidable (a.order ≤ b.order))

instance : IsTotal SelectedDocument docLE :=
  ⟨fun a b => Int.le_total a.order b.order⟩

instance : IsTrans SelectedDocument docLE :=
  ⟨fun _ _ _ h₁ h₂ => le_trans h₁ h₂⟩

/-- `selectedDocuments.filter(doc => doc.selected).sort((a, b) => a.order - b.order)`
(`pdfService.ts:19-21`).  ECMA-262 requires `Array.prototype.sort` to be
stable, and a stable sort by a total preorder is extensionally unique,
so insertion sort computes the same list. -/
def sortedSelection (l : List SelectedDocument) : List SelectedDocument :=
  List.insertionSort docLE (l.filter (fun d => d.selected))

/-- Partial `status` record of `ProjectFormData`: each flag may be
`undefined`. -/
structure StatusFlags where
  forReview : Option Bool
  forApproval : Option Bool
  forRecord : Option Bool
  forInformationOnly : Option Bool
deriving DecidableEq, Repr, Inhabited

/-- Partial `submittalType` record of `ProjectFormData`. -/
structure SubmittalTypeFlags where
  tds : Option Bool
  threePartSpecs : Option Bool
  testReportIccEsr5194 : Option Bool
  testReportIccEsl1645 : Option Bool
  fireAssembly : Option Bool
  fireAssembly01 : Option Bool
  fireAssembly02 : Option Bool
  fireAssembly03 : Option Bool
  msds : Option Bool
  leedGuide : Option Bool
  installationGuide : Option Bool
  warranty : Option Bool
  samples : Option Bool
  other : Option Bool
  otherText : Option String
deriving DecidableEq, Repr, Inhabited

/-- `Partial<ProjectFormData>`: every field may be absent. -/
structure ProjectFormData where
  projectName : Option String
  submittedTo : Option String
  preparedBy : Option String
  date : Option String
  projectNumber : Option String
  emailAddress : Option String
  phoneNumber : Option String
  product : Option String
  productType : Option String
  status : Option StatusFlags
  submittalType : Option SubmittalTypeFlags
deriving DecidableEq, Repr, Inhabited

/-- Canonical `status` record of the payload: every flag defined. -/
structure Status where
  forReview : Bool
  forApproval : Bool
  forRecord : Bool
  forInformationOnly : Bool
deriving DecidableEq, Repr, Inhabited

/-- Canonical `submittalType` record of the payload. -/
structure SubmittalType where
  tds : Bool
  threePartSpecs : Bool
  testReportIccEsr5194 : Bool
  testReportIccEsl1645 : Bool
  fireAssembly : Bool
  fireAssembly01 : Bool
  fireAssembly02 : Bool
  fireAssembly03 : Bool
  msds : Bool
  leedGuide : Bool
  installationGuide : Bool
  warranty : Bool
  samples : Bool
  other : Bool
  otherText : String
deriving DecidableEq, Repr, Inhabited

/-- Canonical `projectData` object of the payload: no field is optional,
so none can be `undefined`. -/
structure ProjectData where
  projectName : String
  submittedTo : String
  preparedBy : String
  date : String
  projectNumber : String
  emailAddress : String
  phoneNumber : String
  product : String
  productType : String
  status : Status
  submittalType : SubmittalType
deriving DecidableEq, Repr, Inhabited

/-- The request payload of `pdfService.ts:92-141`. -/
structure Payload where
  projectData : ProjectData
  documents : List FetchedDocument
  selectedDocumentNames : List String
  allAvailableDocuments : List String
deriving DecidableEq, Repr, Inhabited

/-- The `projectData` object literal of `pdfService.ts:93-135`.  `today`
stands for `new Date().toLocaleDateString('en-US', ...)`, the current
long-form localized date. -/
def buildProjectData (formData : ProjectFormData) (today : String) : ProjectData :=
  { projectName := jsOrStr formData.projectName "Untitled Project"
  , submittedTo := jsOrStr formData.submittedTo "N/A"
  , preparedBy := jsOrStr formData.preparedBy "N/A"
  , date := jsOrStr formData.date today
  , projectNumber := jsOrStr formData.projectNumber "N/A"
  , emailAddress := jsOrStr formData.emailAddress "N/A"
  , phoneNumber := jsOrStr formData.phoneNumber "N/A"
  , product := jsOrStr formData.product "3/4-in (20mm)"
  , productType := jsOrStr formData.productType "structural-floor"
  , status :=
      { forReview := (formData.status.bind StatusFlags.forReview).getD false
      , forApproval := (formData.status.bind StatusFlags.forApproval).getD false
      , forRecord := (formData.status.bind StatusFlags.forRecord).getD false
      , forInformationOnly := (formData.status.bind StatusFlags.forInformationOnly).getD false }
  , submittalType :=
      { tds := (formData.submittalType.bind SubmittalTypeFlags.tds).getD false
      , threePartSpecs := (formData.submittalType.bind SubmittalTypeFlags.threePartSpecs).getD false
      , testReportIccEsr5194 := (formData.submittalType.bind SubmittalTypeFlags.testReportIccEsr5194).getD false
      , testReportIccEsl1645 := (formData.submittalType.bind SubmittalTypeFlags.testReportIccEsl1645).getD false
      , fireAssembly := (formData.submittalType.bind SubmittalTypeFlags.fireAssembly).getD false
      , fireAssembly01 := (formData.submittalType.bind SubmittalTypeFlags.fireAssembly01).getD false
      , fireAssembly02 := (formData.submittalType.bind SubmittalTypeFlags.fireAssembly02).getD false
      , fireAssembly03 := (formData.submittalType.bind SubmittalTypeFlags.fireAssembly03).getD false
      , msds := (formData.submittalType.bind SubmittalTypeFlags.msds).getD false
      , leedGuide := (formData.submittalType.bind SubmittalTypeFlags.leedGuide).getD false
      , installationGuide := (formData.submittalType.bind SubmittalTypeFlags.installationGuide).getD false
      , warranty := (formData.submittalType.bind SubmittalTypeFlags.warranty).getD false
      , samples := (formData.submittalType.bind SubmittalTypeFlags.samples).getD false
      , other := (formData.submittalType.bind SubmittalTypeFlags.other).getD false
      , otherText := jsOrStr (formData.submittalType.bind SubmittalTypeFlags.otherText) "" } }

/-- `allCategoryDocs.map((doc) => doc.name).filter(Boolean)`
(`pdfService.ts:140`): the name list with `undefined` and `""` removed. -/
def availableNames (docs : List Document) : List String :=
  (docs.map Document.name).filterMap
    (fun n =>
      match n with
      | none => none
      | some s => if s = "" then none else some s)

/-- The parsed JSON error body, as far as the code observes it: the
optional `message` field and `JSON.stringify` of the whole body. -/
structure JsonBody where
  message : Option String
  stringified : String
deriving DecidableEq, Repr, Inhabited

/-- Behaviour of `fetch(workerUrl + '/generate-packet', ...)`: either the
transport fails (the promise rejects with a `TypeError`) or a response
arrives, described by its `ok` flag, status, status text, JSON body (or
`none` when `json()` throws), text body and binary body. -/
inductive WorkerReply where
  | transportFailure (message : String)
  | reply (ok : Bool) (status : Nat) (statusText : String)
      (json : Option JsonBody) (text : String) (bytes : List Nat)
deriving DecidableEq, Repr, Inhabited

/-- A JavaScript error value, as far as `generatePacket` inspects it:
whether it is a `TypeError` and its message. -/
structure JsError where
  isTypeError : Bool
  message : String
deriving DecidableEq, Repr, Inhabited

/-- The external world of one `generatePacket` call. -/
structure Env where
  fetchDoc : String → FetchResult
  directory : String → Except String (List Document)
  worker : WorkerReply
  today : String

/-- The construction-time fallback of `workerUrl` (`pdfService.ts:9`). -/
def workerUrlDefault : String :=
  "https://pdf-packet-generator.maxterra-pdf-builder.workers.dev"

/-- The result of one `generatePacket` call together with which external
calls were issued. -/
structure RunResult where
  result : Except JsError (List Nat)
  docFetchUrls : List String
  directoryCalled : Bool
  sentRequest : Option Payload

/-- The final classification pass of the top-level `catch`
(`pdfService.ts:179-205`).  `TypeError` is a subclass of `Error`, so
the second and third branch apply to every error value. -/
def classifyError (workerUrl : String) (e : JsError) : JsError :=
  if e.isTypeError && strIncludes e.message "fetch" then
    { isTypeError := false
    , message := "Cannot connect to PDF Worker at " ++ workerUrl ++
        ". Please check your internet connection and verify the worker is accessible." }
  else if strIncludes e.message "Failed to process document" then
    { isTypeError := false
    , message := "One or more documents could not be loaded. Please verify all documents are accessible and try again." }
  else if strIncludes (jsToLower e.message) "bucket" then
    { isTypeError := false
    , message := "Document storage is not properly configured. Please contact support or verify your Supabase setup." }
  else e

/-- The error-message construction for a non-`ok` worker response
(`pdfService.ts:160-167`): start from the status line, then append the
JSON body's `message` field when present and truthy, else the stringified
JSON body, else (when `json()` throws) the raw text body. -/
def extractedWorkerError (status : Nat) (statusText : String)
    (json : Option JsonBody) (text : String) : String :=
  let base := "Worker request failed: " ++ toString status ++ " " ++ statusText
  match json with
  | some errorData => base ++ " - " ++ jsOrStr errorData.message errorData.stringified
  | none => base ++ " - " ++ text

/-- The URLs requested by the fan-out fetch stage: `Promise.all` issues
every per-document fetch regardless of other elements' failures. -/
def docFetchUrlsOf (sortedDocs : List SelectedDocument) : List String :=
  (sortedDocs.filter (fun d => jsTruthy d.document.url)).map
    (fun d => d.document.url.getD "")

/-- The request payload of `pdfService.ts:92-141`, including the
best-effort directory lookup of lines 83-89 whose failure is caught and
degraded to an empty list. -/
def payloadOf (env : Env) (formData : ProjectFormData)
    (sortedDocs : List SelectedDocument)
    (documentsWithData : List FetchedDocument) : Payload :=
  let productType := jsOrStr formData.productType "structural-floor"
  let allCategoryDocs :=
    match env.directory productType with
    | Except.ok docs => docs
    | Except.error _ => []
  { projectData := buildProjectData formData env.today
  , documents := documentsWithData
  , selectedDocumentNames := sortedDocs.map displayName
  , allAvailableDocuments := availableNames allCategoryDocs }

/-- The rendering-service request and response handling
(`pdfService.ts:151-177`), with the top-level classification applied to
every thrown error. -/
def workerStage (env : Env) (payload : Payload) (fetchUrls : List String) : RunResult :=
  match env.worker with
  | WorkerReply.transportFailure msg =>
      { result := Except.error (classifyError workerUrlDefault ⟨true, msg⟩)
      , docFetchUrls := fetchUrls, directoryCalled := true, sentRequest := some payload }
  | WorkerReply.reply ok status statusText json text bytes =>
      if ok then
        if bytes.length = 0 then
          { result := Except.error (classifyError workerUrlDefault
              ⟨false, "Received empty PDF from worker"⟩)
          , docFetchUrls := fetchUrls, directoryCalled := true, sentRequest := some payload }
        else
          { result := Except.ok bytes
          , docFetchUrls := fetchUrls, directoryCalled := true, sentRequest := some payload }
      else
        { result := Except.error (classifyError workerUrlDefault
            ⟨false, extractedWorkerError status statusText json text⟩)
        , docFetchUrls := fetchUrls, directoryCalled := true, sentRequest := some payload }

/-- `PDFService.generatePacket` (`pdfService.ts:13-206`): filter and sort
the selection, fail when it is empty, fan out the document fetches,
build the payload, post it to the worker, and classify any thrown error
at the top level. -/
def generatePacketRun (env : Env) (formData : ProjectFormData)
    (selectedDocuments : List SelectedDocument) : RunResult :=
  let sortedDocs := sortedSelection selectedDocuments
  if sortedDocs.length = 0 then
    { result := Except.error (classifyError workerUrlDefault
        ⟨false, "No documents selected for packet generation"⟩)
    , docFetchUrls := [], directoryCalled := false, sentRequest := none }
  else
    match processAll env.fetchDoc sortedDocs with
    | Except.error e =>
        { result := Except.error (classifyError workerUrlDefault ⟨false, e⟩)
        , docFetchUrls := docFetchUrlsOf sortedDocs
        , directoryCalled := false, sentRequest := none }
    | Except.ok documentsWithData =>
        workerStage env (payloadOf env formData sortedDocs documentsWithData)
          (docFetchUrlsOf sortedDocs)

/-- A prefix match survives appending on the right. -/
theorem charsMatch_append {pat l : List Char} (h : charsMatch pat l = true)
    (r : List Char) : charsMatch pat (l ++ r) = true := by
  induction pat generalizing l with
  | nil => rfl
  | cons a pa ih =>
    cases l with
    | nil => simp [charsMatch] at h
    | cons b pb =>
      simp only [charsMatch, Bool.and_eq_true, decide_eq_true_eq,
        List.cons_append] at h ⊢
      exact ⟨h.1, ih h.2⟩

/-- A string contains any of its prefixes. -/
theorem strIncludes_of_match {s pat : String}
    (h : charsMatch pat.data s.data = true) : strIncludes s pat = true := by
  unfold strIncludes
  cases hs : s.data with
  | nil => rw [hs] at h; simpa [charsContain] using h
  | cons c t => rw [hs] at h; simp [charsContain, h]

/-- Every wrapped per-document error message contains the marker that
the top-level classifier at `pdfService.ts:191` looks for. -/
theorem strIncludes_failedToProcess (s : String) :
    strIncludes ("Failed to process document: " ++ s)
      "Failed to process document" = true := by
  apply strIncludes_of_match
  rw [String.data_append]
  apply charsMatch_append
  decide

/-- `jsOrS v ""` is the identity: `v || ''` never changes a string. -/
theorem jsOrS_empty (v : String) : jsOrS v "" = v := by
  unfold jsOrS
  split <;> simp_all

/-- Stability of `orderedInsert` on equal keys: filtering by one `order`
value commutes with the insertion, because the new element lands before
every element of equal key. -/
theorem filter_orderedInsert (a : SelectedDocument) (l : List SelectedDocument)
    (k : Int) :
    (List.orderedInsert docLE a l).filter (fun d => decide (d.order = k))
      = if a.order = k
          then a :: l.filter (fun d => decide (d.order = k))
          else l.filter (fun d => decide (d.order = k)) := by
  induction l with
  | nil =>
    simp only [List.orderedInsert]
    by_cases h : a.order = k <;> simp [List.filter, h]
  | cons b t ih =>
    by_cases hab : docLE a b
    · simp only [List.orderedInsert, if_pos hab]
      by_cases h : a.order = k <;> simp [List.filter_cons, h]
    · simp only [List.orderedInsert, if_neg hab]
      rw [List.filter_cons, ih]
      by_cases h : a.order = k
      · have hbk : ¬(b.order = k) := by
          unfold docLE at hab
          omega
        simp [h, hbk, List.filter_cons]
      · simp [h, List.filter_cons]

/-- Stability of the insertion sort: the elements of any one `order`
value appear in the sorted output exactly as they appear in the input. -/
theorem filter_insertionSort (l : List SelectedDocument) (k : Int) :
    (List.insertionSort docLE l).filter (fun d => decide (d.order = k))
      = l.filter (fun d => decide (d.order = k)) := by
  induction l with
  | nil => rfl
  | cons a t ih =>
    simp only [List.insertionSort]
    rw [filter_orderedInsert]
    by_cases h : a.order = k <;> simp [h, ih, List.filter_cons]

/-- `fetchFileData` never returns an empty string: an empty base64
payload is rejected before the stray `resolve` can run. -/
theorem fetchFileData_ok_ne_empty {f : String → FetchResult}
    {d : SelectedDocument} {v : String}
    (h : fetchFileData f d = Except.ok v) : v ≠ "" := by
  unfold fetchFileData at h
  by_cases hu : jsTruthy d.document.url
  · rw [if_pos hu] at h
    cases hfr : f (d.document.url.getD "") <;> rw [hfr] at h
    · cases h
    · cases h
    · cases h
    · rename_i s
      unfold onloadendActions at h
      by_cases hb : (jsSplitComma s).getD 1 "" = ""
      · simp only [hb, if_pos rfl] at h
        simp [settle] at h
      · simp only [if_neg hb] at h
        simp only [List.nil_append, settle] at h
        cases h
        exact hb
  · rw [if_neg hu] at h
    cases h

/-- Shape of a failed `processDocument`: the inner `catch` wraps every
failure into the fixed per-document message of `pdfService.ts:74`. -/
theorem processDocument_error_shape {f : String → FetchResult}
    {d : SelectedDocument} {e : String}
    (h : processDocument f d = Except.error e) :
    e = "Failed to process document: " ++ jsInterp d.document.name := by
  unfold processDocument at h
  cases hf : fetchFileData f d <;> rw [hf] at h
  · cases h
    rfl
  · cases h

/-- Shape of a successful `processDocument`: identity and display name
are taken from the input entry and the encoded data is non-empty. -/
theorem processDocument_ok_shape {f : String → FetchResult}
    {d : SelectedDocument} {x : FetchedDocument}
    (h : processDocument f d = Except.ok x) :
    x.id = d.id ∧ x.name = displayName d ∧ x.fileData ≠ "" := by
  unfold processDocument at h
  cases hf : fetchFileData f d <;> rw [hf] at h
  · cases h
  · cases h
    refine ⟨rfl, rfl, ?_⟩
    simpa [jsOrS_empty] using fetchFileData_ok_ne_empty hf

/-- Shape of a successful fan-out stage: the produced records align
index-by-index with the sorted selection and carry non-empty data. -/
theorem processAll_ok_shape {f : String → FetchResult} :
    ∀ {ds : List SelectedDocument} {fs : List FetchedDocument},
      processAll f ds = Except.ok fs →
        fs.map FetchedDocument.id = ds.map SelectedDocument.id
      ∧ fs.map FetchedDocument.name = ds.map displayName
      ∧ ∀ x ∈ fs, x.fileData ≠ "" := by
  intro ds
  induction ds with
  | nil =>
    intro fs h
    simp only [processAll] at h
    cases h
    simp
  | cons d t ih =>
    intro fs h
    unfold processAll at h
    cases hd : processDocument f d <;> rw [hd] at h
    · cases h
    · cases ht : processAll f t <;> rw [ht] at h
      · cases h
      · cases h
        obtain ⟨h1, h2, h3⟩ := ih ht
        obtain ⟨g1, g2, g3⟩ := processDocument_ok_shape hd
        refine ⟨by simp [g1, h1], by simp [g2, h2], ?_⟩
        intro x hx
        rcases List.mem_cons.mp hx with hx | hx
        · cases hx
          exact g3
        · exact h3 x hx

/-- Shape of a failed fan-out stage: the aggregate error is the wrapped
per-document message of one of the inputs. -/
theorem processAll_error_shape {f : String → FetchResult} :
    ∀ {ds : List SelectedDocument} {e : String},
      processAll f ds = Except.error e →
        ∃ d ∈ ds, e = "Failed to process document: " ++ jsInterp d.document.name := by
  intro ds
  induction ds with
  | nil =>
    intro e h
    simp [processAll] at h
  | cons d t ih =>
    intro e h
    unfold processAll at h
    cases hd : processDocument f d <;> rw [hd] at h
    · cases h
      exact ⟨d, List.mem_cons_self d t, processDocument_error_shape hd⟩
    · cases ht : processAll f t <;> rw [ht] at h
      · cases h
        obtain ⟨d2, hm, hs⟩ := ih ht
        exact ⟨d2, List.mem_cons_of_mem d hm, hs⟩
      · cases h

/-- If any member of the list fails, the whole fan-out stage fails. -/
theorem processAll_error_of_mem {f : String → FetchResult}
    {d : SelectedDocument} {e : String} :
    ∀ {ds : List SelectedDocument}, d ∈ ds →
      processDocument f d = Except.error e →
        ∃ e2, processAll f ds = Except.error e2 := by
  intro ds
  induction ds with
  | nil =>
    intro hm
    cases hm
  | cons b t ih =>
    intro hm he
    unfold processAll
    cases hb : processDocument f b
    · exact ⟨_, rfl⟩
    · cases ht : processAll f t
      · exact ⟨_, rfl⟩
      · rcases List.mem_cons.mp hm with hx | hx
        · cases hx
          rw [hb] at he
          cases he
        · rcases ih hx he with ⟨e2, hh⟩
          rw [ht] at hh
          cases hh

/-- The rendering stage always records the payload it was about to post:
`fetch` is called with the serialized payload in every branch. -/
theorem workerStage_sentRequest (env : Env) (p : Payload) (urls : List String) :
    (workerStage env p urls).sentRequest = some p := by
  unfold workerStage
  cases env.worker with
  | transportFailure msg => rfl
  | reply ok status statusText json text bytes =>
    cases ok with
    | true =>
      by_cases h2 : bytes.length = 0 <;> simp [h2]
    | false => rfl

/-- Empty-selection branch of `generatePacket` (`pdfService.ts:23-25`). -/
theorem run_empty (env : Env) (fd : ProjectFormData) (l : List SelectedDocument)
    (h : sortedSelection l = []) :
    generatePacketRun env fd l =
      { result := Except.error (classifyError workerUrlDefault
          ⟨false, "No documents selected for packet generation"⟩)
      , docFetchUrls := [], directoryCalled := false, sentRequest := none } := by
  unfold generatePacketRun
  simp [h]

/-- Fetch-failure branch of `generatePacket`: `Promise.all` rejects, the
directory lookup and the worker request are never reached. -/
theorem run_fetchError (env : Env) (fd : ProjectFormData)
    (l : List SelectedDocument) (e : String)
    (hne : sortedSelection l ≠ [])
    (he : processAll env.fetchDoc (sortedSelection l) = Except.error e) :
    generatePacketRun env fd l =
      { result := Except.error (classifyError workerUrlDefault ⟨false, e⟩)
      , docFetchUrls := docFetchUrlsOf (sortedSelection l)
      , directoryCalled := false, sentRequest := none } := by
  have hlen : ¬(sortedSelection l).length = 0 := by
    simpa [List.length_eq_zero] using hne
  unfold generatePacketRun
  simp [hlen, he]

/-- Successful fan-out branch of `generatePacket`: the run continues
with the payload built from the sorted selection and its fetch results. -/
theorem run_fetchOk (env : Env) (fd : ProjectFormData)
    (l : List SelectedDocument) (fs : List FetchedDocument)
    (hne : sortedSelection l ≠ [])
    (hok : processAll env.fetchDoc (sortedSelection l) = Except.ok fs) :
    generatePacketRun env fd l =
      workerStage env (payloadOf env fd (sortedSelection l) fs)
        (docFetchUrlsOf (sortedSelection l)) := by
  have hlen : ¬(sortedSelection l).length = 0 := by
    simpa [List.length_eq_zero] using hne
  unfold generatePacketRun
  simp [hlen, hok]

/-- Inversion: a payload reaches the rendering service only from the
successful fan-out branch, and it is the one built by `payloadOf`. -/
theorem sentRequest_inv (env : Env) (fd : ProjectFormData)
    (l : List SelectedDocument) (p : Payload)
    (h : (generatePacketRun env fd l).sentRequest = some p) :
    ∃ fs, processAll env.fetchDoc (sortedSelection l) = Except.ok fs
        ∧ p = payloadOf env fd (sortedSelection l) fs := by
  by_cases hemp : sortedSelection l = []
  · rw [run_empty env fd l hemp] at h
    cases h
  · cases hall : processAll env.fetchDoc (sortedSelection l) with
    | error e =>
      rw [run_fetchError env fd l e hemp hall] at h
      cases h
    | ok fs =>
      rw [run_fetchOk env fd l fs hemp hall] at h
      rw [workerStage_sentRequest] at h
      cases h
      exact ⟨fs, rfl, rfl⟩

/-- The classifier leaves every error alone whose message matches none
of the three substring patterns of `pdfService.ts:183-202`. -/
theorem classifyError_id (wd : String) (e : JsError)
    (h1 : e.isTypeError = false ∨ strIncludes e.message "fetch" = false)
    (h2 : strIncludes e.message "Failed to process document" = false)
    (h3 : strIncludes (jsToLower e.message) "bucket" = false) :
    classifyError wd e = e := by
  unfold classifyError
  have hb : (e.isTypeError && strIncludes e.message "fetch") = false := by
    rcases h1 with h | h <;> simp [h]
  simp [hb, h2, h3]

/-- The classifier replaces every wrapped per-document error with the
fixed aggregate message of `pdfService.ts:192-194`. -/
theorem classifyError_processFailure (wd : String) (s : String) :
    classifyError wd ⟨false, "Failed to process document: " ++ s⟩ =
      ⟨false, "One or more documents could not be loaded. Please verify all documents are accessible and try again."⟩ := by
  unfold classifyError
  simp [strIncludes_failedToProcess]

/-- A fully-absent form input: every field `undefined`. -/
def fdW : ProjectFormData :=
  ⟨none, none, none, none, none, none, none, none, none, none, none⟩

/-- Concrete selection entry with `order` 2, selected. -/
def docA : SelectedDocument :=
  { id := "a"
  , document := { id := "da", name := some "Alpha", url := some "https://x/a.pdf", type := some "tds" }
  , selected := true, order := 2 }

/-- Concrete selection entry with `order` 1, selected; listed after
`docA` in the input to exercise the sort. -/
def docB : SelectedDocument :=
  { id := "b"
  , document := { id := "db", name := some "Beta", url := some "https://x/b.pdf", type := none }
  , selected := true, order := 1 }

/-- Concrete unselected entry. -/
def docC : SelectedDocument :=
  { id := "c"
  , document := { id := "dc", name := some "Gamma", url := some "https://x/c.pdf", type := some "msds" }
  , selected := false, order := 0 }

/-- Concrete document-fetch behaviour: both selected documents resolve
to valid data URLs, everything else is a 404. -/
def fetchW : String → FetchResult := fun u =>
  if u = "https://x/a.pdf" then FetchResult.dataUrl "data:application/pdf;base64,QUFB"
  else if u = "https://x/b.pdf" then FetchResult.dataUrl "data:application/pdf;base64,QkJC"
  else FetchResult.notOk 404 "Not Found"

/-- Concrete happy-path environment: fetches succeed, the directory
lookup fails, the worker answers 200 with a non-empty body. -/
def envW : Env :=
  { fetchDoc := fetchW
  , directory := fun _ => Except.error "registry down"
  , worker := WorkerReply.reply true 200 "OK" none "" [37, 80, 68, 70]
  , today := "January 1, 2026" }

/-- Concrete input selection: positions scrambled relative to `order`. -/
def lW : List SelectedDocument := [docA, docC, docB]

/-- The payload the happy-path run sends. -/
def pW : Payload := ((generatePacketRun envW fdW lW).sentRequest).getD default

/-- C1: in the request built by `generatePacket`, `documents` and
`selectedDocumentNames` hold exactly the `selected=true` entries,
ordered ascending by `order` with ties broken by original input
position.  The sorted selection is a permutation of the selected
entries, pairwise ascending in `order`, and for every key the equal-key
entries keep their input order; those three facts determine the list
uniquely, so the result is independent of the entries' input positions
beyond tie-breaking.  `Promise.all` places results by index, so
fetch-completion order cannot affect the arrays. -/
theorem generatePacket_documents_sorted :
    (∀ l : List SelectedDocument,
        (sortedSelection l).Perm (l.filter (fun d => d.selected))
      ∧ (sortedSelection l).Pairwise (fun a b => a.order ≤ b.order)
      ∧ ∀ k : Int,
          (sortedSelection l).filter (fun d => decide (d.order = k))
            = (l.filter (fun d => d.selected)).filter (fun d => decide (d.order = k)))
  ∧ ∀ (env : Env) (fd : ProjectFormData) (l : List SelectedDocument) (p : Payload),
      (generatePacketRun env fd l).sentRequest = some p →
        p.selectedDocumentNames = (sortedSelection l).map displayName
      ∧ p.documents.map FetchedDocument.id = (sortedSelection l).map SelectedDocument.id
      ∧ p.documents.map FetchedDocument.name = (sortedSelection l).map displayName := by
  constructor
  · intro l
    exact ⟨List.perm_insertionSort docLE _, List.sorted_insertionSort docLE _,
      fun k => filter_insertionSort _ k⟩
  · intro env fd l p h
    obtain ⟨fs, hok, hp⟩ := sentRequest_inv env fd l p h
    obtain ⟨h1, h2, _⟩ := processAll_ok_shape hok
    subst hp
    exact ⟨rfl, h1, h2⟩

/-- Witness for C1 on the concrete scrambled selection. -/
theorem generatePacket_documents_sorted_witness :
    pW.selectedDocumentNames = (sortedSelection lW).map displayName
  ∧ pW.documents.map FetchedDocument.id = (sortedSelection lW).map SelectedDocument.id
  ∧ pW.documents.map FetchedDocument.name = (sortedSelection lW).map displayName :=
  generatePacket_documents_sorted.2 envW fdW lW pW (by rfl)

/-- C2: every `ProjectMetadata` field absent from the input appears in
the canonical `projectData` with its documented default.  The canonical
record `ProjectData` has no optional field, so no field of the payload
can be `undefined` — totality of `buildProjectData` is the embedding of
that guarantee.  `today` stands for the current long-form localized
date produced at `pdfService.ts:98-102`. -/
theorem projectData_defaults :
    ∀ (fd : ProjectFormData) (today : String),
      ((fd.projectName = none → (buildProjectData fd today).projectName = "Untitled Project")
    ∧ (fd.submittedTo = none → (buildProjectData fd today).submittedTo = "N/A")
    ∧ (fd.preparedBy = none → (buildProjectData fd today).preparedBy = "N/A")
    ∧ (fd.date = none → (buildProjectData fd today).date = today)
    ∧ (fd.projectNumber = none → (buildProjectData fd today).projectNumber = "N/A")
    ∧ (fd.emailAddress = none → (buildProjectData fd today).emailAddress = "N/A")
    ∧ (fd.phoneNumber = none → (buildProjectData fd today).phoneNumber = "N/A")
    ∧ (fd.product = none → (buildProjectData fd today).product = "3/4-in (20mm)")
    ∧ (fd.productType = none → (buildProjectData fd today).productType = "structural-floor"))
    ∧ ((fd.status.bind StatusFlags.forReview = none →
          (buildProjectData fd today).status.forReview = false)
    ∧ (fd.status.bind StatusFlags.forApproval = none →
          (buildProjectData fd today).status.forApproval = false)
    ∧ (fd.status.bind StatusFlags.forRecord = none →
          (buildProjectData fd today).status.forRecord = false)
    ∧ (fd.status.bind StatusFlags.forInformationOnly = none →
          (buildProjectData fd today).status.forInformationOnly = false)
    ∧ (fd.submittalType.bind SubmittalTypeFlags.tds = none →
          (buildProjectData fd today).submittalType.tds = false)
    ∧ (fd.submittalType.bind SubmittalTypeFlags.threePartSpecs = none →
          (buildProjectData fd today).submittalType.threePartSpecs = false)
    ∧ (fd.submittalType.bind SubmittalTypeFlags.testReportIccEsr5194 = none →
          (buildProjectData fd today).submittalType.testReportIccEsr5194 = false)
    ∧ (fd.submittalType.bind SubmittalTypeFlags.testReportIccEsl1645 = none →
          (buildProjectData fd today).submittalType.testReportIccEsl1645 = false)
    ∧ (fd.submittalType.bind SubmittalTypeFlags.fireAssembly = none →
          (buildProjectData fd today).submittalType.fireAssembly = false)
    ∧ (fd.submittalType.bind SubmittalTypeFlags.fireAssembly01 = none →
          (buildProjectData fd today).submittalType.fireAssembly01 = false)
    ∧ (fd.submittalType.bind SubmittalTypeFlags.fireAssembly02 = none →
          (buildProjectData fd today).submittalType.fireAssembly02 = false)
    ∧ (fd.submittalType.bind SubmittalTypeFlags.fireAssembly03 = none →
          (buildProjectData fd today).submittalType.fireAssembly03 = false)
    ∧ (fd.submittalType.bind SubmittalTypeFlags.msds = none →
          (buildProjectData fd today).submittalType.msds = false)
    ∧ (fd.submittalType.bind SubmittalTypeFlags.leedGuide = none →
          (buildProjectData fd today).submittalType.leedGuide = false)
    ∧ (fd.submittalType.bind SubmittalTypeFlags.installationGuide = none →
          (buildProjectData fd today).submittalType.installationGuide = false)
    ∧ (fd.submittalType.bind SubmittalTypeFlags.warranty = none →
          (buildProjectData fd today).submittalType.warranty = false)
    ∧ (fd.submittalType.bind SubmittalTypeFlags.samples = none →
          (buildProjectData fd today).submittalType.samples = false)
    ∧ (fd.submittalType.bind SubmittalTypeFlags.other = none →
          (buildProjectData fd today).submittalType.other = false)
    ∧ (fd.submittalType.bind SubmittalTypeFlags.otherText = none →
          (buildProjectData fd today).submittalType.otherText = "")) := by
  intro fd today
  refine ⟨⟨?_, ?_, ?_, ?_, ?_, ?_, ?_, ?_, ?_⟩,
    ?_, ?_, ?_, ?_, ?_, ?_, ?_, ?_, ?_, ?_, ?_, ?_, ?_, ?_, ?_, ?_, ?_, ?_, ?_⟩ <;>
    intro h <;> simp [buildProjectData, h, jsOrStr]

/-- Witness for C2: the all-absent form yields the documented defaults. -/
theorem projectData_defaults_witness :
    (buildProjectData fdW "January 1, 2026").projectName = "Untitled Project"
  ∧ (buildProjectData fdW "January 1, 2026").date = "January 1, 2026"
  ∧ (buildProjectData fdW "January 1, 2026").status.forReview = false
  ∧ (buildProjectData fdW "January 1, 2026").submittalType.otherText = "" := by
  obtain ⟨⟨h1, _, _, h4, _, _, _, _, _⟩, hf⟩ :=
    projectData_defaults fdW "January 1, 2026"
  obtain ⟨g1, _, _, _, _, _, _, _, _, _, _, _, _, _, _, _, _, _, g19⟩ := hf
  exact ⟨h1 rfl, h4 rfl, g1 rfl, g19 rfl⟩

/-- C3: an all-unselected input aborts with the no-documents error
before any external call: no document fetch, no directory lookup, no
worker request. -/
theorem noSelection_failsEarly :
    ∀ (env : Env) (fd : ProjectFormData) (l : List SelectedDocument),
      l.filter (fun d => d.selected) = [] →
        (generatePacketRun env fd l).result
          = Except.error ⟨false, "No documents selected for packet generation"⟩
      ∧ (generatePacketRun env fd l).docFetchUrls = []
      ∧ (generatePacketRun env fd l).directoryCalled = false
      ∧ (generatePacketRun env fd l).sentRequest = none := by
  intro env fd l h
  have hs : sortedSelection l = [] := by
    unfold sortedSelection
    rw [h]
    rfl
  rw [run_empty env fd l hs]
  refine ⟨?_, rfl, rfl, rfl⟩
  rw [classifyError_id]
  · exact Or.inl rfl
  · decide
  · decide

/-- Witness for C3 on a selection whose single entry is unselected. -/
theorem noSelection_failsEarly_witness :
    (generatePacketRun envW fdW [docC]).result
      = Except.error ⟨false, "No documents selected for packet generation"⟩
  ∧ (generatePacketRun envW fdW [docC]).docFetchUrls = []
  ∧ (generatePacketRun envW fdW [docC]).directoryCalled = false
  ∧ (generatePacketRun envW fdW [docC]).sentRequest = none :=
  noSelection_failsEarly envW fdW [docC] (by decide)

/-- Environment in which every document fetch returns HTTP 404. -/
def envX : Env :=
  { fetchDoc := fun _ => FetchResult.notOk 404 "Not Found"
  , directory := fun _ => Except.ok []
  , worker := WorkerReply.reply true 200 "OK" none "" [1]
  , today := "January 1, 2026" }

/-- C4 counterexample: with the selected document named `Alpha` failing
its fetch, the whole call fails and nothing is posted to the renderer,
but the error surfaced to the caller is the fixed aggregate message of
`pdfService.ts:192-194`, which does not contain the failing document's
name — the claim's "naming that failing document" is false for the
error the call fails with. -/
theorem documentFailure_names_counterexample :
    (generatePacketRun envX fdW [docA]).result
      = Except.error ⟨false, "One or more documents could not be loaded. Please verify all documents are accessible and try again."⟩
  ∧ strIncludes "One or more documents could not be loaded. Please verify all documents are accessible and try again." "Alpha" = false
  ∧ (generatePacketRun envX fdW [docA]).sentRequest = none :=
  ⟨rfl, by decide, rfl⟩

/-- C4 (amended): whenever a selected document's fetch or encoding
fails, the whole call fails and no request reaches the rendering
service; the failing document's name appears in the wrapped
per-document error, but the error surfaced to the caller is the fixed
aggregate message, which does not name the document. -/
theorem documentFailure_aborts :
    ∀ (env : Env) (fd : ProjectFormData) (l : List SelectedDocument)
      (d : SelectedDocument) (e : String),
      d ∈ l → d.selected = true →
      processDocument env.fetchDoc d = Except.error e →
        (generatePacketRun env fd l).result
          = Except.error ⟨false, "One or more documents could not be loaded. Please verify all documents are accessible and try again."⟩
      ∧ (generatePacketRun env fd l).sentRequest = none
      ∧ (generatePacketRun env fd l).directoryCalled = false
      ∧ e = "Failed to process document: " ++ jsInterp d.document.name := by
  intro env fd l d e hd hsel he
  have hm : d ∈ sortedSelection l := by
    unfold sortedSelection
    exact (List.perm_insertionSort docLE _).mem_iff.mpr
      (List.mem_filter.mpr ⟨hd, by simp [hsel]⟩)
  have hne : sortedSelection l ≠ [] := by
    intro hx
    rw [hx] at hm
    cases hm
  obtain ⟨e2, hall⟩ := processAll_error_of_mem hm he
  obtain ⟨d2, _, hs⟩ := processAll_error_shape hall
  rw [run_fetchError env fd l e2 hne hall]
  subst hs
  exact ⟨by rw [classifyError_processFailure], rfl, rfl,
    processDocument_error_shape he⟩

/-- Witness for the amended C4 at the 404 environment. -/
theorem documentFailure_aborts_witness :
    (generatePacketRun envX fdW [docA]).result
      = Except.error ⟨false, "One or more documents could not be loaded. Please verify all documents are accessible and try again."⟩
  ∧ (generatePacketRun envX fdW [docA]).sentRequest = none
  ∧ (generatePacketRun envX fdW [docA]).directoryCalled = false
  ∧ "Failed to process document: Alpha"
      = "Failed to process document: " ++ jsInterp docA.document.name :=
  documentFailure_aborts envX fdW [docA] docA "Failed to process document: Alpha"
    (by decide) (by rfl) (by rfl)

/-- C5: when the category-directory lookup fails while every fetch and
the rendering request succeed, the call still succeeds and the request
it sends carries an empty `allAvailableDocuments`. -/
theorem directoryFailure_degrades :
    ∀ (env : Env) (fd : ProjectFormData) (l : List SelectedDocument)
      (fs : List FetchedDocument) (st : Nat) (stText : String)
      (json : Option JsonBody) (text : String) (bytes : List Nat) (emsg : String),
      sortedSelection l ≠ [] →
      processAll env.fetchDoc (sortedSelection l) = Except.ok fs →
      env.directory (jsOrStr fd.productType "structural-floor") = Except.error emsg →
      env.worker = WorkerReply.reply true st stText json text bytes →
      bytes ≠ [] →
        (generatePacketRun env fd l).result = Except.ok bytes
      ∧ (generatePacketRun env fd l).sentRequest.map Payload.allAvailableDocuments
          = some [] := by
  intro env fd l fs st stText json text bytes emsg hne hok hdir hw hb
  rw [run_fetchOk env fd l fs hne hok]
  have hlen : ¬bytes.length = 0 := by
    simpa [List.length_eq_zero] using hb
  constructor
  · unfold workerStage
    rw [hw]
    simp [hlen]
  · rw [workerStage_sentRequest]
    simp [payloadOf, hdir, availableNames]

/-- The fetched records of the happy-path fixture. -/
def fsW : List FetchedDocument :=
  (processAll envW.fetchDoc (sortedSelection lW)).toOption.getD []

/-- Witness for C5 on the happy-path fixture, whose directory lookup
fails. -/
theorem directoryFailure_degrades_witness :
    (generatePacketRun envW fdW lW).result = Except.ok [37, 80, 68, 70]
  ∧ (generatePacketRun envW fdW lW).sentRequest.map Payload.allAvailableDocuments
      = some [] :=
  directoryFailure_degrades envW fdW lW fsW 200 "OK" none "" [37, 80, 68, 70]
    "registry down" (by decide) (by rfl) (by rfl) (by rfl) (by decide)

/-- Environment whose worker rejects with a JSON body whose message
mentions the storage bucket. -/
def env6 : Env :=
  { fetchDoc := fetchW
  , directory := fun _ => Except.ok []
  , worker := WorkerReply.reply false 500 "Internal Server Error"
      (some { message := some "storage bucket missing"
            , stringified := "stringified-error-body" }) "" []
  , today := "January 1, 2026" }

/-- C6 counterexample: a 500 response whose JSON `message` contains the
word `bucket` is re-classified by the top-level `catch`
(`pdfService.ts:198-202`) into the storage-configuration message, so the
error the call fails with carries neither the HTTP status nor the
status text nor the extracted message. -/
theorem renderError_status_counterexample :
    (generatePacketRun env6 fdW lW).result
      = Except.error ⟨false, "Document storage is not properly configured. Please contact support or verify your Supabase setup."⟩
  ∧ strIncludes "Document storage is not properly configured. Please contact support or verify your Supabase setup." "500" = false
  ∧ strIncludes "Document storage is not properly configured. Please contact support or verify your Supabase setup." "storage bucket missing" = false :=
  ⟨rfl, by decide, by decide⟩

/-- C6 (amended): for a non-success worker response the call fails with
the composed message carrying the HTTP status, status text and the
extracted message — taken from the JSON body's `message` field when
present and non-empty, else the stringified JSON body, else (when JSON
parsing throws) the raw text body — unless the composed message contains
`Failed to process document` or, case-insensitively, `bucket`, in which
case the top-level classifier replaces it. -/
theorem renderError_message :
    ∀ (env : Env) (fd : ProjectFormData) (l : List SelectedDocument)
      (fs : List FetchedDocument) (st : Nat) (stText : String)
      (json : Option JsonBody) (text : String) (bytes : List Nat),
      sortedSelection l ≠ [] →
      processAll env.fetchDoc (sortedSelection l) = Except.ok fs →
      env.worker = WorkerReply.reply false st stText json text bytes →
      strIncludes (extractedWorkerError st stText json text)
        "Failed to process document" = false →
      strIncludes (jsToLower (extractedWorkerError st stText json text))
        "bucket" = false →
        (generatePacketRun env fd l).result
          = Except.error ⟨false, extractedWorkerError st stText json text⟩
      ∧ (∀ b m, json = some b → b.message = some m → m ≠ "" →
            extractedWorkerError st stText json text
              = "Worker request failed: " ++ toString st ++ " " ++ stText ++ " - " ++ m)
      ∧ (∀ b, json = some b → b.message = none →
            extractedWorkerError st stText json text
              = "Worker request failed: " ++ toString st ++ " " ++ stText ++ " - " ++ b.stringified)
      ∧ (json = none →
            extractedWorkerError st stText json text
              = "Worker request failed: " ++ toString st ++ " " ++ stText ++ " - " ++ text) := by
  intro env fd l fs st stText json text bytes hne hok hw h2 h3
  refine ⟨?_, ?_, ?_, ?_⟩
  · rw [run_fetchOk env fd l fs hne hok]
    unfold workerStage
    rw [hw]
    simp only [Bool.false_eq_true, if_false]
    rw [classifyError_id _ _ (Or.inl rfl) h2 h3]
  · intro b m hb hm hne2
    subst hb
    unfold extractedWorkerError
    simp [hm, jsOrStr, hne2]
  · intro b hb hm
    subst hb
    unfold extractedWorkerError
    simp [hm, jsOrStr]
  · intro hb
    subst hb
    unfold extractedWorkerError
    simp

/-- Environment whose worker rejects with 500 and JSON message
`render failed` (the spec's end-to-end scenario). -/
def env7 : Env :=
  { fetchDoc := fetchW
  , directory := fun _ => Except.ok []
  , worker := WorkerReply.reply false 500 "Internal Server Error"
      (some { message := some "render failed"
            , stringified := "stringified-error-body" }) "" []
  , today := "January 1, 2026" }

/-- Witness for the amended C6: the surfaced message carries the status
line and the JSON `message` text. -/
theorem renderError_message_witness :
    (generatePacketRun env7 fdW lW).result
      = Except.error ⟨false, extractedWorkerError 500 "Internal Server Error"
          (some { message := some "render failed"
                , stringified := "stringified-error-body" }) ""⟩
  ∧ extractedWorkerError 500 "Internal Server Error"
        (some { message := some "render failed"
              , stringified := "stringified-error-body" }) ""
      = "Worker request failed: " ++ toString 500 ++ " " ++ "Internal Server Error"
          ++ " - " ++ "render failed" := by
  obtain ⟨h1, h2, _, _⟩ := renderError_message env7 fdW lW fsW 500
    "Internal Server Error"
    (some { message := some "render failed", stringified := "stringified-error-body" })
    "" [] (by decide) (by rfl) (by rfl) (by decide) (by decide)
  exact ⟨h1, h2 _ "render failed" rfl rfl (by decide)⟩

/-- C7: a 2xx worker response with a zero-byte body makes the call fail
with the empty-artifact error (`pdfService.ts:171-174`), and a 2xx
response with a non-empty body is returned byte-for-byte. -/
theorem emptyArtifact_rejected :
    ∀ (env : Env) (fd : ProjectFormData) (l : List SelectedDocument)
      (fs : List FetchedDocument) (st : Nat) (stText : String)
      (json : Option JsonBody) (text : String) (bytes : List Nat),
      sortedSelection l ≠ [] →
      processAll env.fetchDoc (sortedSelection l) = Except.ok fs →
      env.worker = WorkerReply.reply true st stText json text bytes →
        (bytes = [] →
          (generatePacketRun env fd l).result
            = Except.error ⟨false, "Received empty PDF from worker"⟩)
      ∧ (bytes ≠ [] → (generatePacketRun env fd l).result = Except.ok bytes) := by
  intro env fd l fs st stText json text bytes hne hok hw
  rw [run_fetchOk env fd l fs hne hok]
  unfold workerStage
  rw [hw]
  constructor
  · intro hb
    subst hb
    simp only [List.length_nil, if_pos rfl, if_true]
    rw [classifyError_id _ _ (Or.inl rfl) (by decide) (by decide)]
  · intro hb
    have hlen : ¬bytes.length = 0 := by
      simpa [List.length_eq_zero] using hb
    simp [hlen]

/-- The happy-path environment with a zero-byte worker body. -/
def envE : Env :=
  { fetchDoc := fetchW
  , directory := fun _ => Except.error "registry down"
  , worker := WorkerReply.reply true 200 "OK" none "" []
  , today := "January 1, 2026" }

/-- Witness for C7 at the zero-byte response. -/
theorem emptyArtifact_rejected_witness :
    (generatePacketRun envE fdW lW).result
      = Except.error ⟨false, "Received empty PDF from worker"⟩ :=
  (emptyArtifact_rejected envE fdW lW fsW 200 "OK" none "" []
    (by decide) (by rfl) (by rfl)).1 rfl

/-- C8: a fetched document whose data URI has an empty base64 payload
after the comma fails with the encoding error: the callback calls
`reject` first, the promise is then settled, and the later `resolve`
call is ignored, so the per-document processing fails (and with it, by
`documentFailure_aborts`, the whole call). -/
theorem emptyEncoding_rejects :
    ∀ (s : String), (jsSplitComma s).getD 1 "" = "" →
        settle (onloadendActions s)
          = Except.error "Failed to encode document as base64"
      ∧ ∀ (f : String → FetchResult) (d : SelectedDocument),
          jsTruthy d.document.url = true →
          f (d.document.url.getD "") = FetchResult.dataUrl s →
            processDocument f d
              = Except.error ("Failed to process document: " ++ jsInterp d.document.name) := by
  intro s hb
  have hset : settle (onloadendActions s)
      = Except.error "Failed to encode document as base64" := by
    unfold onloadendActions
    simp only [hb]
    simp [settle]
  refine ⟨hset, ?_⟩
  intro f d hu hf
  unfold processDocument fetchFileData
  simp [hu, hf, hset]

/-- A fetch behaviour returning a data URI with an empty payload. -/
def fetchEmptyPayload : String → FetchResult :=
  fun _ => FetchResult.dataUrl "data:application/pdf;base64,"

/-- Witness for C8 on the prefix-only data URI. -/
theorem emptyEncoding_rejects_witness :
    settle (onloadendActions "data:application/pdf;base64,")
      = Except.error "Failed to encode document as base64"
  ∧ processDocument fetchEmptyPayload docA
      = Except.error ("Failed to process document: " ++ jsInterp docA.document.name) := by
  obtain ⟨h1, h2⟩ := emptyEncoding_rejects "data:application/pdf;base64," (by decide)
  exact ⟨h1, h2 fetchEmptyPayload docA (by decide) (by rfl)⟩

/-- C9: every request actually posted to the rendering service has a
non-empty `fileData` on every element of `documents`: the `|| ''`
fallback at `pdfService.ts:70` never fires in a successful build because
an empty encoding result rejects first.  This settles the spec's open
question: empty `fileData` cannot occur in a sent request. -/
theorem sent_fileData_nonempty :
    ∀ (env : Env) (fd : ProjectFormData) (l : List SelectedDocument) (p : Payload),
      (generatePacketRun env fd l).sentRequest = some p →
        ∀ x ∈ p.documents, x.fileData ≠ "" := by
  intro env fd l p h
  obtain ⟨fs, hok, hp⟩ := sentRequest_inv env fd l p h
  obtain ⟨_, _, h3⟩ := processAll_ok_shape hok
  subst hp
  exact h3

/-- The first document record of the happy-path payload. -/
def fW9 : FetchedDocument := pW.documents.getD 0 default

/-- Witness for C9: the concrete sent payload's first document has
non-empty data. -/
theorem sent_fileData_nonempty_witness : fW9.fileData ≠ "" :=
  sent_fileData_nonempty envW fdW lW pW (by rfl) fW9 (by decide)

/-- A heap of JavaScript array objects holding `SelectedDocument`s,
addressed by allocation index, to make the aliasing behaviour of
`pdfService.ts:19-21` observable: `filter` allocates a fresh array and
`sort` mutates its receiver in place. -/
structure ArrayHeap where
  next : Nat
  store : Nat → List SelectedDocument

/-- In-place update of one array object. -/
def heapWrite (h : ArrayHeap) (i : Nat) (v : List SelectedDocument) : ArrayHeap :=
  { next := h.next, store := fun j => if j = i then v else h.store j }

/-- Allocation of a fresh array object holding `v`. -/
def heapAlloc (h : ArrayHeap) (v : List SelectedDocument) : ArrayHeap × Nat :=
  ({ next := h.next + 1
   , store := fun j => if j = h.next then v else h.store j }, h.next)

/-- `arr.filter(doc => doc.selected)`: reads the receiver and allocates
a new array for the result. -/
def filterSelectedOp (h : ArrayHeap) (i : Nat) : ArrayHeap × Nat :=
  heapAlloc h ((h.store i).filter (fun d => d.selected))

/-- `arr.sort((a, b) => a.order - b.order)`: sorts the receiver in
place and returns the receiver itself. -/
def sortInPlaceOp (h : ArrayHeap) (i : Nat) : ArrayHeap × Nat :=
  (heapWrite h i (List.insertionSort docLE (h.store i)), i)

/-- The whole expression
`selectedDocuments.filter(doc => doc.selected).sort((a, b) => a.order - b.order)`
of `pdfService.ts:19-21`: the sort receiver is the fresh array returned
by `filter`, never the caller's array. -/
def sortedDocsOp (h : ArrayHeap) (i : Nat) : ArrayHeap × Nat :=
  let fr := filterSelectedOp h i
  sortInPlaceOp fr.1 fr.2

/-- A heap whose only live object, at address `0`, is the caller's
`selectedDocuments` array. -/
def initialHeap (l : List SelectedDocument) : ArrayHeap :=
  { next := 1, store := fun j => if j = 0 then l else [] }

/-- C10: `generatePacket` never mutates the caller's `selectedDocuments`
array.  Running the filter-then-sort expression on a heap containing
the caller's array leaves that array unchanged — `filter` allocates a
copy and only the copy is sorted in place — while the returned object
is a distinct address holding the sorted selection.  No other statement
of `generatePacket` writes to an input array. -/
theorem generatePacket_no_input_mutation :
    ∀ l : List SelectedDocument,
      ((sortedDocsOp (initialHeap l) 0).1).store 0 = l
    ∧ ((sortedDocsOp (initialHeap l) 0).1).store (sortedDocsOp (initialHeap l) 0).2
        = sortedSelection l
    ∧ (sortedDocsOp (initialHeap l) 0).2 ≠ 0 := by
  intro l
  refine ⟨?_, ?_, ?_⟩ <;>
    simp [sortedDocsOp, filterSelectedOp, sortInPlaceOp, heapAlloc, heapWrite,
      initialHeap, sortedSelection]
